import Mathlib

/-!
# ceph-csi: snapshot clone workflow, snapshot journal regeneration, VolumeSnapshotContent reconciler

Shallow embedding of

* `internal/rbd/snapshot.go`: `createRBDClone`, `cleanUpSnapshot`, `RegenerateSnapJournal`;
* `internal/controller/volumesnapshot/volumesnapshot.go`: `getCredentials`, `reconcileVS`.

Go code that talks to the cluster is stateful.  The calls it makes into other
packages (rbd image operations, the journal connection, the Kubernetes client)
are collaborators: each is a field of a record of functions over an arbitrary
world state `σ`, returning its Go result together with the next world.  Every
embedded function threads the world through the calls in source order and
additionally records each collaborator call, with its arguments and its
result, in a trace, so that statements such as "is invoked exactly once" or
"succeeds" can be read off a run.  Logging calls have no effect on control
flow and are left out.
-/

namespace CephCSI

/-! ## Go errors -/

/-- Go `error` values that are not nil.  `new` is `errors.New` or `fmt.Errorf`
without a wrapping verb (a package-level sentinel such as `ErrSnapNotFound` is
a `new` value), `wrapf` is `fmt.Errorf` with one wrapping verb, `wrapf2` with
two.  The text argument of the wrappers is the formatted message without the
text of the wrapped errors.  Go compares error values by identity; here two
errors are the same value when they are built the same way. -/
inductive GoError where
  | new (msg : String)
  | wrapf (msg : String) (inner : GoError)
  | wrapf2 (msg : String) (first second : GoError)
deriving DecidableEq, Repr

/-- Go `errors.Is(err, target)`: `err` equals `target` or some error in its
unwrap tree does. -/
def GoError.is : GoError → GoError → Bool
  | .new m, target => decide (GoError.new m = target)
  | .wrapf m inner, target =>
      decide (GoError.wrapf m inner = target) || GoError.is inner target
  | .wrapf2 m a b, target =>
      decide (GoError.wrapf2 m a b = target) || GoError.is a target || GoError.is b target

/-- Sentinel `ErrSnapNotFound` of package rbd. -/
def ErrSnapNotFound : GoError := .new "snapshot not found"

/-- Sentinel `ErrImageNotFound` of package rbd. -/
def ErrImageNotFound : GoError := .new "image not found"

/-- Sentinel `ErrInvalidVolID` of package rbd. -/
def ErrInvalidVolID : GoError := .new "invalid VolumeID"

/-! ## rbd value objects -/

/-- The fields of `rbdVolume` (with its embedded `rbdImage`) that the embedded
functions read or write.  A fresh `&rbdVolume{}` has every field empty. -/
structure rbdVolume where
  VolID : String := ""
  ClusterName : String := ""
  Owner : String := ""
  Monitors : String := ""
  ClusterID : String := ""
  Pool : String := ""
  JournalPool : String := ""
  RadosNamespace : String := ""
  RequestName : String := ""
  NamePrefix : String := ""
  ParentName : String := ""
  ReservedID : String := ""
  ImageID : String := ""
  RbdImageName : String := ""
deriving DecidableEq, Repr

/-- The fields of `rbdSnapshot` (with its embedded `rbdImage`) that the
embedded functions read or write. -/
structure rbdSnapshot where
  RbdSnapName : String := ""
  RbdImageName : String := ""
  VolID : String := ""
  ClusterID : String := ""
  Pool : String := ""
  JournalPool : String := ""
  RadosNamespace : String := ""
  ImageID : String := ""
deriving DecidableEq, Repr

/-- Opaque credentials (`util.Credentials`). -/
structure Credentials where
  ID : String := ""
  KeyFile : String := ""
deriving DecidableEq, Repr

/-- Decoded handle `util.CSIIdentifier`. -/
structure CSIIdentifier where
  LocationID : Int := 0
  EncodingVersion : Nat := 0
  ClusterID : String := ""
  ObjectUUID : String := ""
deriving DecidableEq, Repr

/-- Attributes of an existing reservation (`journal.ImageAttributes`). -/
structure ImageAttributes where
  RequestName : String := ""
  ImageName : String := ""
  ImageID : String := ""
  Owner : String := ""
  SourceName : String := ""
deriving DecidableEq, Repr

/-- Result of `CheckReservation` (`journal.ImageData`). -/
structure ImageData where
  ImageUUID : String := ""
  ImageAttributes : ImageAttributes := {}
deriving DecidableEq, Repr

/-- Arguments of `Connection.ReserveName`, in source order. -/
structure ReserveArgs where
  journalPool : String
  journalPoolID : Int
  imagePool : String
  imagePoolID : Int
  reqName : String
  namePrefix : String
  parentName : String
  kmsConf : String
  volUUID : String
  owner : String
  backingSnapshotID : String
  encryptionType : Nat
deriving DecidableEq, Repr

/-- Encryption type `util.EncryptionTypeNone`. -/
def EncryptionTypeNone : Nat := 0

/-- Handle encoding version `volIDVersion` of package rbd. -/
def volIDVersion : Nat := 1

/-! ## Trace of collaborator calls -/

/-- Equality of Go results `(value, error)` is decidable. -/
instance instDecidableEqExcept {ε α : Type} [DecidableEq ε] [DecidableEq α] :
    DecidableEq (Except ε α)
  | .ok a, .ok b =>
      if h : a = b then isTrue (by rw [h]) else isFalse (fun h2 => by cases h2; exact h rfl)
  | .error a, .error b =>
      if h : a = b then isTrue (by rw [h]) else isFalse (fun h2 => by cases h2; exact h rfl)
  | .ok _, .error _ => isFalse (fun h2 => by cases h2)
  | .error _, .ok _ => isFalse (fun h2 => by cases h2)

/-- One collaborator call: its arguments as passed by the embedded code and
the result it returned (`none` for a nil error).  The last two constructors
mark the places where `reconcileVS` calls `getCredentials` and
`RegenerateSnapJournal`, which are embedded functions and not collaborators. -/
inductive Event where
  | createSnapshot (parentVol : rbdVolume) (snap : rbdSnapshot) (res : Option GoError)
  | cloneRbdImageFromSnapshot (cloneRbdVol : rbdVolume) (snap : rbdSnapshot)
      (parentVol : rbdVolume) (res : Option GoError)
  | deleteSnapshot (parentVol : rbdVolume) (snap : rbdSnapshot) (res : Option GoError)
  | deleteImage (vol : rbdVolume) (res : Option GoError)
  | FetchMappedClusterIDAndMons (clusterID : String) (res : Except GoError (String × String))
  | FetchMappedRBDPoolID (clusterID poolID : String) (res : Except GoError String)
  | GetPoolName (monitors : String) (pID : Int) (res : Except GoError String)
  | Connect (vol : rbdVolume) (res : Option GoError)
  | journalConnect (monitors radosNamespace : String) (res : Option GoError)
  | journalDestroy
  | GetPoolIDs (monitors journalPool pool : String) (res : Except GoError (Int × Int))
  | CheckReservation (journalPool reqName namePrefix parentName kmsConfig : String)
      (encryptionType : Nat) (res : Except GoError (Option ImageData))
  | storeImageID (vol : rbdVolume) (res : Option GoError)
  | ResetVolumeOwner (pool reservedUUID owner : String) (res : Option GoError)
  | GenerateVolID (monitors : String) (locationID : Int) (pool clusterID objUUID : String)
      (version : Nat) (res : Except GoError String)
  | ReserveName (args : ReserveArgs) (res : Except GoError (String × String))
  | UndoReservation (csiJournalPool volJournalPool volName reqName : String)
      (res : Option GoError)
  | clientGet (name nameSpace : String) (res : Except GoError (List (String × String)))
  | NewUserCredentials (data : List (String × String)) (res : Except GoError Credentials)
  | DeleteCredentials (cr : Credentials)
  | TryAcquire (key : String) (res : Bool)
  | Release (key : String)
  | callGetCredentials (name nameSpace : String)
  | callRegenerateSnapJournal (snapVolumeID clusterName owner requestName : String)
deriving DecidableEq, Repr

/-- Recogniser of `deleteSnapshot` calls. -/
def Event.isDeleteSnapshot : Event → Bool
  | .deleteSnapshot _ _ _ => true
  | _ => false

/-- Recogniser of `deleteImage` calls. -/
def Event.isDeleteImage : Event → Bool
  | .deleteImage _ _ => true
  | _ => false

/-- Recogniser of `cloneRbdImageFromSnapshot` calls. -/
def Event.isClone : Event → Bool
  | .cloneRbdImageFromSnapshot _ _ _ _ => true
  | _ => false

/-- Recogniser of `ReserveName` calls. -/
def Event.isReserveName : Event → Bool
  | .ReserveName _ _ => true
  | _ => false

/-- Recogniser of `UndoReservation` calls. -/
def Event.isUndoReservation : Event → Bool
  | .UndoReservation _ _ _ _ _ => true
  | _ => false

/-- Recogniser of `ResetVolumeOwner` calls. -/
def Event.isResetVolumeOwner : Event → Bool
  | .ResetVolumeOwner _ _ _ _ => true
  | _ => false

/-- Recogniser of a failed step after `ReserveName`: a `GenerateVolID` call
that returned an error or a `storeImageID` call that returned an error. -/
def Event.isLaterFailure : Event → Bool
  | .GenerateVolID _ _ _ _ _ _ (.error _) => true
  | .storeImageID _ (some _) => true
  | _ => false

/-- Recogniser of a `GenerateVolID` call that returned an error. -/
def Event.isGenerateVolIDFailure : Event → Bool
  | .GenerateVolID _ _ _ _ _ _ (.error _) => true
  | _ => false

/-- Recogniser of a `storeImageID` call that returned an error. -/
def Event.isStoreImageIDFailure : Event → Bool
  | .storeImageID _ (some _) => true
  | _ => false

/-- Recogniser of the places where `reconcileVS` calls `getCredentials`. -/
def Event.isCallGetCredentials : Event → Bool
  | .callGetCredentials _ _ => true
  | _ => false

/-- Recogniser of the places where `reconcileVS` calls
`RegenerateSnapJournal`. -/
def Event.isCallRegenerate : Event → Bool
  | .callRegenerateSnapJournal _ _ _ _ => true
  | _ => false

/-! ## The rbd backend as seen by `createRBDClone` and `cleanUpSnapshot` -/

/-- Methods of `rbdVolume` that talk to the cluster (defined outside the
embedded files).  The context argument is left out. -/
structure Backend (σ : Type) where
  createSnapshot : rbdVolume → rbdSnapshot → σ → Option GoError × σ
  cloneRbdImageFromSnapshot : rbdVolume → rbdSnapshot → rbdVolume → σ → Option GoError × σ
  deleteSnapshot : rbdVolume → rbdSnapshot → σ → Option GoError × σ
  deleteImage : rbdVolume → σ → Option GoError × σ

/-- What a Go function with the single result `error` leaves behind: the
returned error, the world, and the collaborator calls it made. -/
structure ErrOut (σ : Type) where
  err : Option GoError
  state : σ
  trace : List Event

/-- Message of the error built at `snapshot.go:52`. -/
def cloneFailedMsg (cloneRbdVol : rbdVolume) (snap : rbdSnapshot) : String :=
  "failed to clone rbd image " ++ cloneRbdVol.RbdImageName ++ " from snapshot "
    ++ snap.RbdSnapName ++ ": "

/-- The assignment `snap.RbdImageName = parentVol.RbdImageName` of
`snapshot.go:42`: the snapshot as the clone and delete steps receive it. -/
def snapOnParent (parentVol : rbdVolume) (snap : rbdSnapshot) : rbdSnapshot :=
  { snap with RbdImageName := parentVol.RbdImageName }

/-- Embedding of `createRBDClone` (`snapshot.go:29-70`). -/
def createRBDClone {σ : Type} (B : Backend σ) (parentVol cloneRbdVol : rbdVolume)
    (snap : rbdSnapshot) (s : σ) : ErrOut σ :=
  -- err := parentVol.createSnapshot(ctx, snap)
  match B.createSnapshot parentVol snap s with
  | (some err, s1) =>
      -- return err
      ⟨some err, s1, [.createSnapshot parentVol snap (some err)]⟩
  | (none, s1) =>
      -- snap.RbdImageName = parentVol.RbdImageName
      let snap1 : rbdSnapshot := snapOnParent parentVol snap
      -- err = cloneRbdVol.cloneRbdImageFromSnapshot(ctx, snap, parentVol)
      let c := B.cloneRbdImageFromSnapshot cloneRbdVol snap1 parentVol s1
      -- if err != nil { err = fmt.Errorf("...: %w", ..., err) }
      let err : Option GoError := c.1.map (GoError.wrapf (cloneFailedMsg cloneRbdVol snap1))
      -- errSnap := parentVol.deleteSnapshot(ctx, snap)
      match B.deleteSnapshot parentVol snap1 c.2 with
      | (some errSnap, s3) =>
          -- delErr := cloneRbdVol.deleteImage(ctx)
          let d := B.deleteImage cloneRbdVol s3
          -- return err
          ⟨err, d.2,
            [.createSnapshot parentVol snap none,
             .cloneRbdImageFromSnapshot cloneRbdVol snap1 parentVol c.1,
             .deleteSnapshot parentVol snap1 (some errSnap),
             .deleteImage cloneRbdVol d.1]⟩
      | (none, s3) =>
          -- return nil
          ⟨none, s3,
            [.createSnapshot parentVol snap none,
             .cloneRbdImageFromSnapshot cloneRbdVol snap1 parentVol c.1,
             .deleteSnapshot parentVol snap1 none]⟩

/-- Embedding of `cleanUpSnapshot` (`snapshot.go:74-101`); a nil `rbdVol` is
`none`. -/
def cleanUpSnapshot {σ : Type} (B : Backend σ) (parentVol : rbdVolume)
    (rbdSnap : rbdSnapshot) (rbdVol : Option rbdVolume) (s : σ) : ErrOut σ :=
  -- err := parentVol.deleteSnapshot(ctx, rbdSnap)
  let d := B.deleteSnapshot parentVol rbdSnap s
  let ev : Event := .deleteSnapshot parentVol rbdSnap d.1
  -- lines 89-100: if rbdVol != nil { ... }; return nil
  let rest : ErrOut σ :=
    match rbdVol with
    | some vol =>
        -- err := rbdVol.deleteImage(ctx)
        let i := B.deleteImage vol d.2
        match i.1 with
        | some ierr =>
            if !(ierr.is ErrImageNotFound) then
              -- return err
              ⟨some ierr, i.2, [ev, .deleteImage vol i.1]⟩
            else
              ⟨none, i.2, [ev, .deleteImage vol i.1]⟩
        | none => ⟨none, i.2, [ev, .deleteImage vol i.1]⟩
    | none => ⟨none, d.2, [ev]⟩
  match d.1 with
  | some err =>
      if !(err.is ErrSnapNotFound) then
        -- return err
        ⟨some err, d.2, [ev]⟩
      else rest
  | none => rest

/-! ## `RegenerateSnapJournal` -/

/-- Go `strconv.FormatInt(i, 10)`. -/
def FormatInt (i : Int) : String := toString i

/-- Go `strconv.ParseInt(s, 10, 64)`: an optional sign, then at least one
decimal digit and nothing else; a value outside the signed 64-bit range is an
error. -/
def ParseInt (str : String) : Except GoError Int :=
  let cs := str.toList
  let signed : Bool × List Char :=
    match cs with
    | '+' :: rest => (false, rest)
    | '-' :: rest => (true, rest)
    | _ => (false, cs)
  if signed.2 = [] ∨ ¬ (signed.2.all Char.isDigit = true) then
    .error (.new "strconv.ParseInt: invalid syntax")
  else
    let n : Nat := signed.2.foldl (fun acc c => 10 * acc + (c.toNat - 48)) 0
    let v : Int := if signed.1 then -(n : Int) else (n : Int)
    if v < -(2 : Int) ^ 63 ∨ v > (2 : Int) ^ 63 - 1 then
      .error (.new "strconv.ParseInt: value out of range")
    else .ok v

/-- The functions of other packages that `RegenerateSnapJournal` calls (none
of them is defined in the embedded files).  `DecomposeCSIID` is the handle
decoder; the others read or change the world.  Results are Go's
`(value, error)` pairs; the context argument is left out.  `journalConnect` is
`snapJournal.Connect`, `journalDestroy` the `Destroy` of the connection it
returns, and the journal operations are the methods of that connection. -/
structure Collab (σ : Type) where
  DecomposeCSIID : String → Except GoError CSIIdentifier
  FetchMappedClusterIDAndMons : String → σ → Except GoError (String × String) × σ
  FetchMappedRBDPoolID : String → String → σ → Except GoError String × σ
  GetPoolName : String → Credentials → Int → σ → Except GoError String × σ
  Connect : rbdVolume → Credentials → σ → Option GoError × σ
  journalConnect : String → String → Credentials → σ → Option GoError × σ
  journalDestroy : σ → σ
  GetPoolIDs : String → String → String → Credentials → σ → Except GoError (Int × Int) × σ
  CheckReservation : String → String → String → String → String → Nat → σ →
    Except GoError (Option ImageData) × σ
  storeImageID : rbdVolume → σ → Option GoError × σ
  ResetVolumeOwner : String → String → String → σ → Option GoError × σ
  GenerateVolID : String → Credentials → Int → String → String → String → Nat → σ →
    Except GoError String × σ
  ReserveName : ReserveArgs → σ → Except GoError (String × String) × σ
  UndoReservation : String → String → String → String → σ → Option GoError × σ

/-- What a Go function with the results `(string, error)` leaves behind. -/
structure StrOut (σ : Type) where
  val : String
  err : Option GoError
  state : σ
  trace : List Event

/-- Message of the error built at `snapshot.go:166`. -/
def decodeFailedMsg (volID : String) : String :=
  ": error decoding volume ID () (" ++ volID ++ ")"

/-- Lines 245-251 of `RegenerateSnapJournal`: the handle of an existing
record is encoded and returned. -/
def regenerateExistingVolID {σ : Type} (E : Collab σ) (rbdVol : rbdVolume)
    (cr : Credentials) (imagePoolID : Int) (s : σ) : StrOut σ :=
  -- rbdVol.VolID, err = util.GenerateVolID(...)
  let g := E.GenerateVolID rbdVol.Monitors cr imagePoolID rbdVol.Pool rbdVol.ClusterID
    rbdVol.ReservedID volIDVersion s
  let tg : List Event := [.GenerateVolID rbdVol.Monitors imagePoolID rbdVol.Pool
    rbdVol.ClusterID rbdVol.ReservedID volIDVersion g.1]
  match g.1 with
  | .error err => ⟨"", some err, g.2, tg⟩
  | .ok volID => ⟨volID, none, g.2, tg⟩

/-- Lines 236-251 of `RegenerateSnapJournal`: the owner of an existing record
is compared with the owner of the caller and reset when it differs. -/
def regenerateExistingOwner {σ : Type} (E : Collab σ) (rbdVol : rbdVolume)
    (owner : String) (cr : Credentials) (imagePoolID : Int) (s : σ) : StrOut σ :=
  -- if rbdVol.Owner != owner { err = s.ResetVolumeOwner(...) ... }
  if rbdVol.Owner ≠ owner then
    let r := E.ResetVolumeOwner rbdVol.JournalPool rbdVol.ReservedID owner s
    let tr : List Event := [.ResetVolumeOwner rbdVol.JournalPool rbdVol.ReservedID owner r.1]
    match r.1 with
    | some err => ⟨"", some err, r.2, tr⟩
    | none =>
        let o := regenerateExistingVolID E rbdVol cr imagePoolID r.2
        ⟨o.val, o.err, o.state, tr ++ o.trace⟩
  else regenerateExistingVolID E rbdVol cr imagePoolID s

/-- Lines 224-253 of `RegenerateSnapJournal`: the branch taken when
`CheckReservation` returned a record (`imageData != nil`). -/
def regenerateExisting {σ : Type} (E : Collab σ) (rbdVol0 : rbdVolume) (imageData : ImageData)
    (owner : String) (cr : Credentials) (imagePoolID : Int) (s : σ) : StrOut σ :=
  let rbdVol : rbdVolume :=
    { rbdVol0 with
      ReservedID := imageData.ImageUUID
      ImageID := imageData.ImageAttributes.ImageID
      Owner := imageData.ImageAttributes.Owner
      RbdImageName := imageData.ImageAttributes.ImageName }
  -- if rbdVol.ImageID == "" { err = rbdVol.storeImageID(ctx, s) ... }
  if rbdVol.ImageID = "" then
    let r := E.storeImageID rbdVol s
    let tr : List Event := [.storeImageID rbdVol r.1]
    match r.1 with
    | some err => ⟨"", some err, r.2, tr⟩
    | none =>
        let o := regenerateExistingOwner E rbdVol owner cr imagePoolID r.2
        ⟨o.val, o.err, o.state, tr ++ o.trace⟩
  else regenerateExistingOwner E rbdVol owner cr imagePoolID s

/-- Lines 264-286 of `RegenerateSnapJournal`: what follows a successful
`ReserveName`, with the deferred function of lines 264-271.  The deferred
function reads the local variable `err`, which holds the error of the step
that failed whatever the `return` statement returns. -/
def regenerateReserved {σ : Type} (E : Collab σ) (rbdVol : rbdVolume)
    (cr : Credentials) (imagePoolID : Int) (s : σ) : StrOut σ :=
  -- rbdVol.VolID, err = util.GenerateVolID(...)
  let g := E.GenerateVolID rbdVol.Monitors cr imagePoolID rbdVol.Pool rbdVol.ClusterID
    rbdVol.ReservedID volIDVersion s
  let tg : List Event := [.GenerateVolID rbdVol.Monitors imagePoolID rbdVol.Pool
    rbdVol.ClusterID rbdVol.ReservedID volIDVersion g.1]
  match g.1 with
  | .error _ =>
      -- return "", nil; then the deferred function runs with err != nil
      let u := E.UndoReservation rbdVol.JournalPool rbdVol.Pool rbdVol.RbdImageName
        rbdVol.RequestName g.2
      ⟨"", none, u.2, tg ++ [.UndoReservation rbdVol.JournalPool rbdVol.Pool
        rbdVol.RbdImageName rbdVol.RequestName u.1]⟩
  | .ok volID =>
  let rbdVol1 : rbdVolume := { rbdVol with VolID := volID }
  -- if rbdVol.ImageID == "" { err = rbdVol.storeImageID(ctx, s) ... }
  if rbdVol1.ImageID = "" then
    let r := E.storeImageID rbdVol1 g.2
    match r.1 with
    | some err =>
        -- return "", err; then the deferred function runs with err != nil
        let u := E.UndoReservation rbdVol1.JournalPool rbdVol1.Pool rbdVol1.RbdImageName
          rbdVol1.RequestName r.2
        ⟨"", some err, u.2, tg ++ [.storeImageID rbdVol1 r.1,
          .UndoReservation rbdVol1.JournalPool rbdVol1.Pool rbdVol1.RbdImageName
            rbdVol1.RequestName u.1]⟩
    | none =>
        -- return rbdVol.VolID, nil; the deferred function sees err == nil
        ⟨rbdVol1.VolID, none, r.2, tg ++ [.storeImageID rbdVol1 r.1]⟩
  else
    ⟨rbdVol1.VolID, none, g.2, tg⟩

/-- Lines 209-286 of `RegenerateSnapJournal`: the part that runs with the
journal connection open. -/
def regenerateConnected {σ : Type} (E : Collab σ) (rbdVol0 : rbdVolume) (vi : CSIIdentifier)
    (owner requestName : String) (cr : Credentials) (s : σ) : StrOut σ :=
  -- journalPoolID, imagePoolID, err := util.GetPoolIDs(...)
  let p := E.GetPoolIDs rbdVol0.Monitors rbdVol0.JournalPool rbdVol0.Pool cr s
  let tp : List Event := [.GetPoolIDs rbdVol0.Monitors rbdVol0.JournalPool rbdVol0.Pool p.1]
  match p.1 with
  | .error err => ⟨"", some err, p.2, tp⟩
  | .ok (journalPoolID, imagePoolID) =>
  let rbdVol : rbdVolume := { rbdVol0 with RequestName := requestName, NamePrefix := "csi-snap-" }
  -- imageData, err := s.CheckReservation(...)
  let c := E.CheckReservation rbdVol.JournalPool rbdVol.RequestName rbdVol.NamePrefix
    rbdVol.ParentName "" EncryptionTypeNone p.2
  let tc : List Event := tp ++ [.CheckReservation rbdVol.JournalPool rbdVol.RequestName
    rbdVol.NamePrefix rbdVol.ParentName "" EncryptionTypeNone c.1]
  match c.1 with
  | .error err => ⟨"", some err, c.2, tc⟩
  | .ok (some imageData) =>
      let o := regenerateExisting E rbdVol imageData owner cr imagePoolID c.2
      ⟨o.val, o.err, o.state, tc ++ o.trace⟩
  | .ok none =>
  -- rbdVol.ReservedID, rbdVol.RbdImageName, err = s.ReserveName(...)
  let args : ReserveArgs :=
    { journalPool := rbdVol.JournalPool, journalPoolID := journalPoolID
      imagePool := rbdVol.Pool, imagePoolID := imagePoolID
      reqName := rbdVol.RequestName, namePrefix := rbdVol.NamePrefix
      parentName := rbdVol.ParentName, kmsConf := "", volUUID := vi.ObjectUUID
      owner := rbdVol.Owner, backingSnapshotID := ""
      encryptionType := EncryptionTypeNone }
  let r := E.ReserveName args c.2
  let tr : List Event := tc ++ [.ReserveName args r.1]
  match r.1 with
  | .error err => ⟨"", some err, r.2, tr⟩
  | .ok (reservedID, rbdImageName) =>
      let o := regenerateReserved E
        { rbdVol with ReservedID := reservedID, RbdImageName := rbdImageName } cr imagePoolID r.2
      ⟨o.val, o.err, o.state, tr ++ o.trace⟩

/-- Embedding of `RegenerateSnapJournal` (`snapshot.go:140-287`). -/
def RegenerateSnapJournal {σ : Type} (E : Collab σ)
    (snapVolumeID clusterName owner requestName : String) (cr : Credentials) (s : σ) :
    StrOut σ :=
  let rbdVol0 : rbdVolume := { VolID := snapVolumeID, ClusterName := clusterName, Owner := owner }
  -- err = vi.DecomposeCSIID(rbdVol.VolID)
  match E.DecomposeCSIID rbdVol0.VolID with
  | .error err =>
      ⟨"", some (.wrapf2 (decodeFailedMsg rbdVol0.VolID) ErrInvalidVolID err), s, []⟩
  | .ok vi =>
  -- rbdVol.Monitors, rbdVol.ClusterID, err = util.FetchMappedClusterIDAndMons(ctx, vi.ClusterID)
  let m := E.FetchMappedClusterIDAndMons vi.ClusterID s
  let tm : List Event := [.FetchMappedClusterIDAndMons vi.ClusterID m.1]
  match m.1 with
  | .error err => ⟨"", some err, m.2, tm⟩
  | .ok (monitors, clusterID) =>
  let rbdVol1 : rbdVolume := { rbdVol0 with Monitors := monitors, ClusterID := clusterID }
  -- mappedPoolID, err := util.FetchMappedRBDPoolID(ctx, rbdVol.ClusterID, FormatInt(vi.LocationID))
  let f := E.FetchMappedRBDPoolID rbdVol1.ClusterID (FormatInt vi.LocationID) m.2
  let tf : List Event :=
    tm ++ [.FetchMappedRBDPoolID rbdVol1.ClusterID (FormatInt vi.LocationID) f.1]
  match f.1 with
  | .error err => ⟨"", some err, f.2, tf⟩
  | .ok mappedPoolID =>
  -- pID, err := strconv.ParseInt(mappedPoolID, 10, 64)
  match ParseInt mappedPoolID with
  | .error err => ⟨"", some err, f.2, tf⟩
  | .ok pID =>
  -- poolName, err := util.GetPoolName(rbdVol.Monitors, cr, pID)
  let n := E.GetPoolName rbdVol1.Monitors cr pID f.2
  let tn : List Event := tf ++ [.GetPoolName rbdVol1.Monitors pID n.1]
  match n.1 with
  | .error err => ⟨"", some err, n.2, tn⟩
  | .ok poolName =>
  -- rbdVol.Pool = poolName; rbdVol.JournalPool = rbdVol.Pool
  let rbdVol2 : rbdVolume := { rbdVol1 with Pool := poolName, JournalPool := poolName }
  -- err = rbdVol.Connect(cr)
  let k := E.Connect rbdVol2 cr n.2
  let tk : List Event := tn ++ [.Connect rbdVol2 k.1]
  match k.1 with
  | some err => ⟨"", some err, k.2, tk⟩
  | none =>
  -- s, err := snapJournal.Connect(rbdVol.Monitors, rbdVol.RadosNamespace, cr)
  let j := E.journalConnect rbdVol2.Monitors rbdVol2.RadosNamespace cr k.2
  let tj : List Event := tk ++ [.journalConnect rbdVol2.Monitors rbdVol2.RadosNamespace j.1]
  match j.1 with
  | some err => ⟨"", some err, j.2, tj⟩
  | none =>
  -- defer s.Destroy()
  let o := regenerateConnected E rbdVol2 vi owner requestName cr j.2
  ⟨o.val, o.err, E.journalDestroy o.state, tj ++ o.trace ++ [.journalDestroy]⟩

/-! ## The VolumeSnapshotContent reconciler -/

/-- Fields of `snapapi.VolumeSnapshotContentSource`; a nil `*string` is
`none`. -/
structure VolumeSnapshotContentSource where
  VolumeHandle : Option String := none
  SnapshotHandle : Option String := none
deriving DecidableEq, Repr

/-- Fields of `snapapi.VolumeSnapshotContentSpec` read by `reconcileVS`. -/
structure VolumeSnapshotContentSpec where
  Driver : String := ""
  Source : VolumeSnapshotContentSource := {}
deriving DecidableEq, Repr

/-- Fields of `snapapi.VolumeSnapshotContentStatus` read by `reconcileVS`. -/
structure VolumeSnapshotContentStatus where
  SnapshotHandle : Option String := none
deriving DecidableEq, Repr

/-- Fields of `snapapi.VolumeSnapshotContent` read by `reconcileVS`; `Status`
is a pointer and may be nil. -/
structure VolumeSnapshotContent where
  Name : String := ""
  Namespace : String := ""
  Annotations : List (String × String) := []
  Spec : VolumeSnapshotContentSpec := {}
  Status : Option VolumeSnapshotContentStatus := none
deriving DecidableEq, Repr

/-- A `runtime.Object`: a VolumeSnapshotContent or an object of another
kind. -/
inductive Object where
  | volumeSnapshotContent (vsc : VolumeSnapshotContent)
  | other (kind : String)
deriving DecidableEq, Repr

/-- Fields of `ctrl.Config` read by `reconcileVS`. -/
structure Config where
  DriverName : String := ""
  ClusterName : String := ""
deriving DecidableEq, Repr

/-- Modelled from the spec: `util.VolumeLocks`, the lock table (its file is
not among the embedded ones): the set of keys currently held. -/
structure VolumeLocks where
  locks : Finset String
deriving DecidableEq

/-- Modelled from the spec: `VolumeLocks.TryAcquire`, non-blocking: false and
an unchanged table when the key is held, else true and the key is added. -/
def VolumeLocks.TryAcquire (vl : VolumeLocks) (volumeID : String) : Bool × VolumeLocks :=
  if volumeID ∈ vl.locks then (false, vl) else (true, ⟨insert volumeID vl.locks⟩)

/-- Modelled from the spec: `VolumeLocks.Release` removes the key and is a
no-op when the key is not held. -/
def VolumeLocks.Release (vl : VolumeLocks) (volumeID : String) : VolumeLocks :=
  ⟨vl.locks.erase volumeID⟩

/-- The Kubernetes client and the credential helpers of package util that
`getCredentials` and `reconcileVS` call.  `Get` returns the data of the secret
as key/value strings. -/
structure Client (σ : Type) where
  Get : String → String → σ → Except GoError (List (String × String)) × σ
  NewUserCredentials : List (String × String) → σ → Except GoError Credentials × σ
  DeleteCredentials : Credentials → σ → σ

/-- How a Go call ends: it returns its error result, or it panics (here: on
dereferencing a nil pointer). -/
inductive Ret where
  | returned (err : Option GoError)
  | panicked
deriving DecidableEq, Repr

/-- What a call of `reconcileVS` leaves behind. -/
structure ReconcileOut (σ : Type) where
  ret : Ret
  locks : VolumeLocks
  state : σ
  trace : List Event

/-- Go map lookup `m[key]` on a `map[string]string`: the empty string when the
key is absent. -/
def mapIndex (m : List (String × String)) (key : String) : String :=
  (m.lookup key).getD ""

/-- Embedding of `getCredentials` (`volumesnapshot.go:93-127`). -/
def getCredentials {σ : Type} (K : Client σ) (name nameSpace : String) (s : σ) :
    Except GoError Credentials × σ × List Event :=
  if name = "" ∨ nameSpace = "" then
    (.error (.new "secret name or secret namespace is empty"), s, [])
  else
    -- err := r.client.Get(ctx, types.NamespacedName{...}, secret)
    let g := K.Get name nameSpace s
    let tg : List Event := [.clientGet name nameSpace g.1]
    match g.1 with
    | .error err =>
        (.error (.wrapf ("error getting secret " ++ name ++ " in namespace " ++ nameSpace ++ ": ")
          err), g.2, tg)
    | .ok data =>
    -- cr, err = util.NewUserCredentials(credentials)
    let c := K.NewUserCredentials data g.2
    let tc : List Event := tg ++ [.NewUserCredentials data c.1]
    match c.1 with
    | .error err => (.error err, c.2, tc)
    | .ok cr => (.ok cr, c.2, tc)

/-- Annotation key `AnnDeletionSecretRefName` of `reconcileVS`. -/
def AnnDeletionSecretRefName : String := "snapshot.storage.kubernetes.io/deletion-secret-name"

/-- Annotation key `AnnDeletionSecretRefNamespace` of `reconcileVS`. -/
def AnnDeletionSecretRefNamespace : String :=
  "snapshot.storage.kubernetes.io/deletion-secret-namespace"

/-- Embedding of `reconcileVS` (`volumesnapshot.go:129-181`).  `r.Locks` is
passed in and returned; `r.client` and the functions of other packages are the
collaborators `K` and `E`. -/
def reconcileVS {σ : Type} (E : Collab σ) (K : Client σ) (config : Config) (obj : Object)
    (locks : VolumeLocks) (s : σ) : ReconcileOut σ :=
  -- vsc, ok := obj.(*snapapi.VolumeSnapshotContent); if !ok { return nil }
  match obj with
  | .other _ => ⟨.returned none, locks, s, []⟩
  | .volumeSnapshotContent vsc =>
  -- if vsc.Spec.Driver != r.config.DriverName { return nil }
  if vsc.Spec.Driver ≠ config.DriverName then ⟨.returned none, locks, s, []⟩ else
  -- if *vsc.Spec.Source.SnapshotHandle == "" { return nil }
  match vsc.Spec.Source.SnapshotHandle with
  | none => ⟨.panicked, locks, s, []⟩
  | some specHandle =>
  if specHandle = "" then ⟨.returned none, locks, s, []⟩ else
  let vscNamespace := vsc.Namespace
  let requestName := vsc.Name
  -- snapshotHandleName := vsc.Spec.Source.SnapshotHandle
  let snapshotHandleName := specHandle
  let secretName := mapIndex vsc.Annotations AnnDeletionSecretRefName
  let secretNamespace := mapIndex vsc.Annotations AnnDeletionSecretRefNamespace
  -- if ok := r.Locks.TryAcquire(*vsc.Status.SnapshotHandle); !ok { return fmt.Errorf("") }
  match vsc.Status.bind (fun st => st.SnapshotHandle) with
  | none => ⟨.panicked, locks, s, []⟩
  | some statusHandle =>
  let a := locks.TryAcquire statusHandle
  let ta : List Event := [.TryAcquire statusHandle a.1]
  if a.1 = false then ⟨.returned (some (.new "")), a.2, s, ta⟩ else
  -- defer r.Locks.Release(*vsc.Status.SnapshotHandle)
  -- creds, err := r.getCredentials(ctx, secretName, secretNamespace)
  let c := getCredentials K secretName secretNamespace s
  let tc : List Event := ta ++ [.callGetCredentials secretName secretNamespace] ++ c.2.2
  match c.1 with
  | .error err =>
      ⟨.returned (some err), a.2.Release statusHandle, c.2.1, tc ++ [.Release statusHandle]⟩
  | .ok creds =>
  -- defer creds.DeleteCredentials()
  -- rbdVolID, err := rbd.RegenerateSnapJournal(*snapshotHandleName, ...)
  let o := RegenerateSnapJournal E snapshotHandleName config.ClusterName vscNamespace
    requestName creds c.2.1
  let tr : List Event := tc ++
    [.callRegenerateSnapJournal snapshotHandleName config.ClusterName vscNamespace requestName]
    ++ o.trace ++ [.DeleteCredentials creds, .Release statusHandle]
  match o.err with
  | some err =>
      ⟨.returned (some err), a.2.Release statusHandle, K.DeleteCredentials creds o.state, tr⟩
  | none =>
      ⟨.returned none, a.2.Release statusHandle, K.DeleteCredentials creds o.state, tr⟩

/-! ## A backend model for the compensation properties -/

/-- Modelled from the spec: the rbd cluster behind the `rbdVolume` methods
(`createSnapshot`, `cloneRbdImageFromSnapshot`, `deleteSnapshot`,
`deleteImage`, defined outside the embedded files).  The store holds the
snapshots that exist, as (image name, snapshot name), and the images. -/
structure Store where
  snaps : List (String × String) := []
  images : List String := []
deriving DecidableEq, Repr

/-- Modelled from the spec: which backend operations fail, and with which
error, in a run against the `Store` model. -/
structure Faults where
  createSnapshot : Option GoError := none
  cloneRbdImageFromSnapshot : Option GoError := none
  deleteSnapshot : Option GoError := none
  deleteImage : Option GoError := none
deriving DecidableEq, Repr

/-- Modelled from the spec: existence check for a snapshot of an image. -/
def Store.snapExists (st : Store) (image snap : String) : Bool :=
  decide ((image, snap) ∈ st.snaps)

/-- Modelled from the spec: the backend session over `Store`.  A successful
`createSnapshot` adds the snapshot to the parent image, a successful
`deleteSnapshot` removes it, deleting an absent object fails with the
not-found sentinel, and an operation listed in `Faults` fails with the listed
error and changes nothing. -/
def modelBackend (f : Faults) : Backend Store where
  createSnapshot := fun parentVol snap st =>
    match f.createSnapshot with
    | some e => (some e, st)
    | none => (none, { st with snaps := (parentVol.RbdImageName, snap.RbdSnapName) :: st.snaps })
  cloneRbdImageFromSnapshot := fun cloneRbdVol _ _ st =>
    match f.cloneRbdImageFromSnapshot with
    | some e => (some e, st)
    | none => (none, { st with images := cloneRbdVol.RbdImageName :: st.images })
  deleteSnapshot := fun parentVol snap st =>
    match f.deleteSnapshot with
    | some e => (some e, st)
    | none =>
        if st.snapExists parentVol.RbdImageName snap.RbdSnapName then
          (none, { st with snaps :=
            st.snaps.filter (fun k => decide (k ≠ (parentVol.RbdImageName, snap.RbdSnapName))) })
        else (some ErrSnapNotFound, st)
  deleteImage := fun vol st =>
    match f.deleteImage with
    | some e => (some e, st)
    | none =>
        if decide (vol.RbdImageName ∈ st.images) then
          (none, { st with images := st.images.filter (fun k => decide (k ≠ vol.RbdImageName)) })
        else (some ErrImageNotFound, st)

/-- A nil error, or an error that `errors.Is` matches with `target`: the
outcomes of a cleanup call that `cleanUpSnapshot` does not return. -/
def okOrIs (r : Option GoError) (target : GoError) : Prop :=
  ∀ e, r = some e → e.is target = true

/-- Decidability of `okOrIs`. -/
instance instDecidableOkOrIs (r : Option GoError) (target : GoError) :
    Decidable (okOrIs r target) :=
  match r with
  | none => isTrue (fun _ h => by cases h)
  | some e =>
      if h : e.is target = true then isTrue (fun e2 h2 => by cases h2; exact h)
      else isFalse (fun h2 => h (h2 e rfl))

/-! ## A journal model for the rollback and idempotence properties -/

/-- Modelled from the spec: the reservation journal behind the journal
connection (package journal is not among the embedded files).  It maps a
journal pool and a request name to the reservation record, and counts the
reservations made so far to hand out fresh UUIDs. -/
structure Journal where
  records : String → String → Option ImageData
  counter : Nat

/-- Modelled from the spec: the deterministic collaborators of a run against
the `Journal` model (handle decoder, cluster and pool resolution, handle
encoder, UUID source, image id reported by the backend), and which of the
fallible journal and connection operations fail, with which error. -/
structure ModelParams where
  decode : String → Except GoError CSIIdentifier
  clusterMap : String → Except GoError (String × String)
  poolIDMap : String → String → Except GoError String
  poolName : String → Int → Except GoError String
  poolIDs : String → String → String → Except GoError (Int × Int)
  genVolID : String → Int → String → String → String → Nat → Except GoError String
  newUUID : Nat → String
  imageIDOf : rbdVolume → String
  connectFault : Option GoError := none
  journalConnectFault : Option GoError := none
  checkFault : Option GoError := none
  reserveFault : Option GoError := none
  storeFault : Option GoError := none
  resetFault : Option GoError := none

/-- Modelled from the spec: `checkReservation` looks the request name up in
the journal pool. -/
def Journal.check (jn : Journal) (pool reqName : String) : Option ImageData :=
  jn.records pool reqName

/-- Modelled from the spec: `reserveName` allocates a new record for the
request name, with a fresh UUID, the image name made of the name prefix and
the UUID, the given owner and parent, and no image id yet. -/
def Journal.reserve (jn : Journal) (newUUID : Nat → String) (args : ReserveArgs) :
    (String × String) × Journal :=
  let uuid := newUUID jn.counter
  let name := args.namePrefix ++ uuid
  let data : ImageData :=
    { ImageUUID := uuid
      ImageAttributes :=
        { RequestName := args.reqName, ImageName := name, ImageID := "",
          Owner := args.owner, SourceName := args.parentName } }
  ((uuid, name),
   { records := fun p r =>
       if p = args.journalPool ∧ r = args.reqName then some data else jn.records p r
     counter := jn.counter + 1 })

/-- Modelled from the spec: `undoReservation` removes the record of the
request name from the journal pool; it is a no-op when there is none. -/
def Journal.undo (jn : Journal) (pool reqName : String) : Journal :=
  { jn with records := fun p r => if p = pool ∧ r = reqName then none else jn.records p r }

/-- Modelled from the spec: `storeImageID` backfills the image id of the
records of the given UUID and leaves the other fields alone. -/
def Journal.storeID (jn : Journal) (pool uuid imageID : String) : Journal :=
  { jn with records := fun p r =>
      (jn.records p r).map fun d =>
        if p = pool ∧ d.ImageUUID = uuid then
          { d with ImageAttributes := { d.ImageAttributes with ImageID := imageID } }
        else d }

/-- Modelled from the spec: `resetOwner` sets the owner of the records of the
given UUID and leaves the other fields alone. -/
def Journal.resetOwner (jn : Journal) (pool uuid owner : String) : Journal :=
  { jn with records := fun p r =>
      (jn.records p r).map fun d =>
        if p = pool ∧ d.ImageUUID = uuid then
          { d with ImageAttributes := { d.ImageAttributes with Owner := owner } }
        else d }

/-- Modelled from the spec: the collaborators of `RegenerateSnapJournal` over
the `Journal` model.  Resolution and encoding are the functions of the
parameters and leave the journal alone; a journal operation listed as failing
returns its error and changes nothing; `UndoReservation` always removes the
record. -/
def modelCollab (P : ModelParams) : Collab Journal where
  DecomposeCSIID := P.decode
  FetchMappedClusterIDAndMons := fun clusterID jn => (P.clusterMap clusterID, jn)
  FetchMappedRBDPoolID := fun clusterID poolID jn => (P.poolIDMap clusterID poolID, jn)
  GetPoolName := fun monitors _ pID jn => (P.poolName monitors pID, jn)
  Connect := fun _ _ jn => (P.connectFault, jn)
  journalConnect := fun _ _ _ jn => (P.journalConnectFault, jn)
  journalDestroy := fun jn => jn
  GetPoolIDs := fun monitors journalPool pool _ jn => (P.poolIDs monitors journalPool pool, jn)
  CheckReservation := fun journalPool reqName _ _ _ _ jn =>
    match P.checkFault with
    | some e => (.error e, jn)
    | none => (.ok (jn.check journalPool reqName), jn)
  storeImageID := fun vol jn =>
    match P.storeFault with
    | some e => (some e, jn)
    | none => (none, jn.storeID vol.JournalPool vol.ReservedID (P.imageIDOf vol))
  ResetVolumeOwner := fun pool uuid owner jn =>
    match P.resetFault with
    | some e => (some e, jn)
    | none => (none, jn.resetOwner pool uuid owner)
  GenerateVolID := fun monitors _ locationID pool clusterID objUUID version jn =>
    (P.genVolID monitors locationID pool clusterID objUUID version, jn)
  ReserveName := fun args jn =>
    match P.reserveFault with
    | some e => (.error e, jn)
    | none => let r := jn.reserve P.newUUID args; (.ok r.1, r.2)
  UndoReservation := fun csiJournalPool _ _ reqName jn => (none, jn.undo csiJournalPool reqName)

/-- Modelled from the spec: a Kubernetes client over the `Journal` world that
knows one secret per (name, namespace) and builds credentials from it without
touching the journal. -/
def modelClient (secrets : String → String → Except GoError (List (String × String)))
    (mkCreds : List (String × String) → Except GoError Credentials) : Client Journal where
  Get := fun name nameSpace jn => (secrets name nameSpace, jn)
  NewUserCredentials := fun data jn => (mkCreds data, jn)
  DeleteCredentials := fun _ jn => jn

/-- The empty journal. -/
def Journal.empty : Journal := { records := fun _ _ => none, counter := 0 }

/-- Parameters of the scenarios of the spec: every handle decodes to version
1, cluster "c1", location 5, object "u1"; the cluster maps to itself with the
monitor "mon1"; pool id 5 is the pool "pool-5"; the first reserved UUID is
"u2"; the handle of an object is cluster, location and UUID joined by "/";
nothing fails. -/
def scenarioParams : ModelParams where
  decode := fun h =>
    if h = "" then .error (.new "invalid handle")
    else .ok { LocationID := 5, EncodingVersion := 1, ClusterID := "c1", ObjectUUID := "u1" }
  clusterMap := fun c => .ok ("mon1", c)
  poolIDMap := fun _ _ => .ok "5"
  poolName := fun _ _ => .ok "pool-5"
  poolIDs := fun _ _ _ => .ok (5, 5)
  genVolID := fun _ _ _ clusterID objUUID _ => .ok (clusterID ++ "/5/" ++ objUUID)
  newUUID := fun n => if n = 0 then "u2" else "u3"
  imageIDOf := fun _ => "id-1"

/-- The record of Scenario B of the spec: request "snap-42" with UUID "u9",
owner "ns-a" and no image id. -/
def scenarioBRecord : ImageData :=
  { ImageUUID := "u9"
    ImageAttributes := { RequestName := "snap-42", ImageName := "csi-snap-u9", Owner := "ns-a" } }

/-- The journal of Scenario B of the spec: pool "pool-5" holds
`scenarioBRecord` for the request "snap-42". -/
def scenarioBJournal : Journal where
  records := fun p r => if p = "pool-5" ∧ r = "snap-42" then some scenarioBRecord else none
  counter := 1

/-- The arguments of `ReserveName` in the scenarios of the spec: request
"snap-42" of owner "ns-b" in pool "pool-5". -/
def scenarioReserveArgs : ReserveArgs :=
  { journalPool := "pool-5", journalPoolID := 5, imagePool := "pool-5", imagePoolID := 5
    reqName := "snap-42", namePrefix := "csi-snap-", parentName := "", kmsConf := ""
    volUUID := "u1", owner := "ns-b", backingSnapshotID := ""
    encryptionType := EncryptionTypeNone }

/-- A VolumeSnapshotContent "snap-42" of namespace "ns-b" for the driver
"rbd.csi.ceph.com", whose source handle is "h1", whose status handle is
`statusHandle`, and which names the deletion secret "sec" of namespace "ns". -/
def scenarioContent (statusHandle : String) : VolumeSnapshotContent :=
  { Name := "snap-42", Namespace := "ns-b"
    Annotations := [(AnnDeletionSecretRefName, "sec"), (AnnDeletionSecretRefNamespace, "ns")]
    Spec := { Driver := "rbd.csi.ceph.com", Source := { SnapshotHandle := some "h1" } }
    Status := some { SnapshotHandle := some statusHandle } }

/-- The configuration of the scenarios: driver "rbd.csi.ceph.com", cluster
"cluster". -/
def scenarioConfig : Config := { DriverName := "rbd.csi.ceph.com", ClusterName := "cluster" }

/-- A client that finds every secret and builds credentials from it. -/
def scenarioClient : Client Journal :=
  modelClient (fun _ _ => .ok [("userID", "admin")]) (fun _ => .ok { ID := "admin" })

/-! ## Theorems: `createRBDClone` and `cleanUpSnapshot` -/

/-- C1 (the code departs from the claim): when `createSnapshot` succeeds, the
clone step fails with `e` and the following `deleteSnapshot` succeeds,
`createRBDClone` returns nil although the clone call did return `e`: the
wrapped clone error built at `snapshot.go:52` is dropped by the `return nil`
of line 69. -/
theorem createRBDClone_clone_error_lost {σ : Type} (B : Backend σ)
    (parentVol cloneRbdVol : rbdVolume) (snap : rbdSnapshot) (s : σ) (e : GoError)
    (hcreate : (B.createSnapshot parentVol snap s).1 = none)
    (hclone : (B.cloneRbdImageFromSnapshot cloneRbdVol (snapOnParent parentVol snap) parentVol
      (B.createSnapshot parentVol snap s).2).1 = some e)
    (hdelete : (B.deleteSnapshot parentVol (snapOnParent parentVol snap)
      (B.cloneRbdImageFromSnapshot cloneRbdVol (snapOnParent parentVol snap) parentVol
        (B.createSnapshot parentVol snap s).2).2).1 = none) :
    (createRBDClone B parentVol cloneRbdVol snap s).err = none ∧
      Event.cloneRbdImageFromSnapshot cloneRbdVol (snapOnParent parentVol snap) parentVol (some e)
        ∈ (createRBDClone B parentVol cloneRbdVol snap s).trace := by
  unfold createRBDClone
  split
  · next err s1 h => rw [h] at hcreate; cases hcreate
  · next s1 h =>
    simp only [h] at hclone hdelete ⊢
    split
    · next errSnap s3 h3 => rw [h3] at hdelete; cases hdelete
    · simp [hclone]

/-- C1, at a concrete input: parent image "img", snapshot "snap-1", the clone
step fails with the error "clone failed" and nothing else fails. -/
theorem createRBDClone_clone_error_lost_witness :
    (createRBDClone (modelBackend { cloneRbdImageFromSnapshot := some (.new "clone failed") })
      { RbdImageName := "img" } { RbdImageName := "clone" } { RbdSnapName := "snap-1" }
      {}).err = none :=
  (createRBDClone_clone_error_lost
    (modelBackend { cloneRbdImageFromSnapshot := some (.new "clone failed") })
    { RbdImageName := "img" } { RbdImageName := "clone" } { RbdSnapName := "snap-1" } {}
    (.new "clone failed") rfl rfl (by decide)).1

/-- C2 (the code departs from the claim): when `createSnapshot` and the clone
step succeed and `deleteSnapshot` fails with `d`, `createRBDClone` does call
`deleteImage` on the clone volume, exactly once, but returns nil: line 66
returns the clone step's error variable, which is nil, and not `errSnap`. -/
theorem createRBDClone_delete_error_lost {σ : Type} (B : Backend σ)
    (parentVol cloneRbdVol : rbdVolume) (snap : rbdSnapshot) (s : σ) (d : GoError)
    (hcreate : (B.createSnapshot parentVol snap s).1 = none)
    (hclone : (B.cloneRbdImageFromSnapshot cloneRbdVol (snapOnParent parentVol snap) parentVol
      (B.createSnapshot parentVol snap s).2).1 = none)
    (hdelete : (B.deleteSnapshot parentVol (snapOnParent parentVol snap)
      (B.cloneRbdImageFromSnapshot cloneRbdVol (snapOnParent parentVol snap) parentVol
        (B.createSnapshot parentVol snap s).2).2).1 = some d) :
    (createRBDClone B parentVol cloneRbdVol snap s).err = none ∧
      ∃ r, (createRBDClone B parentVol cloneRbdVol snap s).trace.filter Event.isDeleteImage
        = [Event.deleteImage cloneRbdVol r] := by
  unfold createRBDClone
  split
  · next err s1 h => rw [h] at hcreate; cases hcreate
  · next s1 h =>
    simp only [h] at hclone hdelete ⊢
    split
    · next errSnap s3 h3 =>
      simp [hclone, List.filter, Event.isDeleteImage]
    · next s3 h3 => rw [h3] at hdelete; cases hdelete

/-- C2, at a concrete input: parent image "img", snapshot "snap-1", only
`deleteSnapshot` fails, with the error "busy". -/
theorem createRBDClone_delete_error_lost_witness :
    (createRBDClone (modelBackend { deleteSnapshot := some (.new "busy") })
      { RbdImageName := "img" } { RbdImageName := "clone" } { RbdSnapName := "snap-1" }
      {}).err = none :=
  (createRBDClone_delete_error_lost
    (modelBackend { deleteSnapshot := some (.new "busy") })
    { RbdImageName := "img" } { RbdImageName := "clone" } { RbdSnapName := "snap-1" } {}
    (.new "busy") rfl rfl rfl).1

/-- C9: (1) when `createSnapshot` succeeds and the clone step fails,
`deleteSnapshot` is called exactly once, on the parent volume and with the
snapshot the clone step received; (2) over the `Store` backend model, when in
addition `deleteSnapshot` is not made to fail, the snapshot does not exist in
the store that `createRBDClone` leaves behind; (3) when `createSnapshot` fails
with `e`, `createRBDClone` returns `e` and calls neither the clone step nor
any delete. -/
theorem createRBDClone_compensation {σ : Type} (B : Backend σ)
    (parentVol cloneRbdVol : rbdVolume) (snap : rbdSnapshot) (s : σ)
    (f : Faults) (st : Store) :
    ((B.createSnapshot parentVol snap s).1 = none →
      (B.cloneRbdImageFromSnapshot cloneRbdVol (snapOnParent parentVol snap) parentVol
        (B.createSnapshot parentVol snap s).2).1 ≠ none →
      ∃ r, (createRBDClone B parentVol cloneRbdVol snap s).trace.filter Event.isDeleteSnapshot
        = [Event.deleteSnapshot parentVol (snapOnParent parentVol snap) r]) ∧
    (f.createSnapshot = none → f.cloneRbdImageFromSnapshot ≠ none → f.deleteSnapshot = none →
      (createRBDClone (modelBackend f) parentVol cloneRbdVol snap st).state.snapExists
        parentVol.RbdImageName snap.RbdSnapName = false) ∧
    (∀ e, (B.createSnapshot parentVol snap s).1 = some e →
      (createRBDClone B parentVol cloneRbdVol snap s).err = some e ∧
      (createRBDClone B parentVol cloneRbdVol snap s).trace.filter
        (fun ev => ev.isClone || ev.isDeleteSnapshot || ev.isDeleteImage) = []) := by
  refine ⟨?_, ?_, ?_⟩
  · intro hcreate _
    unfold createRBDClone
    split
    · next err s1 h => rw [h] at hcreate; cases hcreate
    · next s1 h =>
      dsimp only
      split <;> simp [List.filter, Event.isDeleteSnapshot]
  · intro hc hcl hd
    obtain ⟨e, he⟩ := Option.ne_none_iff_exists'.mp hcl
    simp [createRBDClone, modelBackend, hc, he, hd, snapOnParent, Store.snapExists]
  · intro e hcreate
    unfold createRBDClone
    split
    · next err s1 h =>
      rw [h] at hcreate
      cases hcreate
      simp [List.filter, Event.isClone, Event.isDeleteSnapshot, Event.isDeleteImage]
    · next s1 h => rw [h] at hcreate; cases hcreate

/-- C9, at concrete inputs: parent image "img" and snapshot "snap-1" on the
empty store, first with a failing clone step, then with a failing
`createSnapshot`. -/
theorem createRBDClone_compensation_witness :
    (∃ r, (createRBDClone (modelBackend { cloneRbdImageFromSnapshot := some (.new "clone failed") })
        { RbdImageName := "img" } { RbdImageName := "clone" } { RbdSnapName := "snap-1" }
        {}).trace.filter Event.isDeleteSnapshot
      = [Event.deleteSnapshot { RbdImageName := "img" }
          (snapOnParent { RbdImageName := "img" } { RbdSnapName := "snap-1" }) r]) ∧
    (createRBDClone (modelBackend { cloneRbdImageFromSnapshot := some (.new "clone failed") })
        { RbdImageName := "img" } { RbdImageName := "clone" } { RbdSnapName := "snap-1" }
        {}).state.snapExists "img" "snap-1" = false ∧
    (createRBDClone (modelBackend { createSnapshot := some (.new "no space") })
        { RbdImageName := "img" } { RbdImageName := "clone" } { RbdSnapName := "snap-1" }
        {}).err = some (.new "no space") :=
  ⟨(createRBDClone_compensation
      (modelBackend { cloneRbdImageFromSnapshot := some (.new "clone failed") })
      { RbdImageName := "img" } { RbdImageName := "clone" } { RbdSnapName := "snap-1" } {}
      { cloneRbdImageFromSnapshot := some (.new "clone failed") } {}).1 rfl (by decide),
   (createRBDClone_compensation
      (modelBackend { cloneRbdImageFromSnapshot := some (.new "clone failed") })
      { RbdImageName := "img" } { RbdImageName := "clone" } { RbdSnapName := "snap-1" } {}
      { cloneRbdImageFromSnapshot := some (.new "clone failed") } {}).2.1 rfl (by decide) rfl,
   ((createRBDClone_compensation
      (modelBackend { createSnapshot := some (.new "no space") })
      { RbdImageName := "img" } { RbdImageName := "clone" } { RbdSnapName := "snap-1" } {}
      {} {}).2.2 (.new "no space") rfl).1⟩

/-- C10: `cleanUpSnapshot` returns nil exactly when the snapshot deletion
succeeds or fails with `ErrSnapNotFound` and, for a non-nil `rbdVol`, the image
deletion succeeds or fails with `ErrImageNotFound`; an error of the snapshot
deletion that is not `ErrSnapNotFound` is returned unchanged and no image
deletion is attempted; an error of the image deletion that is not
`ErrImageNotFound` is returned unchanged. -/
theorem cleanUpSnapshot_nil_iff {σ : Type} (B : Backend σ) (parentVol : rbdVolume)
    (rbdSnap : rbdSnapshot) (rbdVol : Option rbdVolume) (s : σ) :
    ((cleanUpSnapshot B parentVol rbdSnap rbdVol s).err = none ↔
      okOrIs (B.deleteSnapshot parentVol rbdSnap s).1 ErrSnapNotFound ∧
      ∀ vol, rbdVol = some vol →
        okOrIs (B.deleteImage vol (B.deleteSnapshot parentVol rbdSnap s).2).1 ErrImageNotFound) ∧
    (∀ e, (B.deleteSnapshot parentVol rbdSnap s).1 = some e → e.is ErrSnapNotFound = false →
      (cleanUpSnapshot B parentVol rbdSnap rbdVol s).err = some e ∧
      (cleanUpSnapshot B parentVol rbdSnap rbdVol s).trace.filter Event.isDeleteImage = []) ∧
    (∀ vol e, okOrIs (B.deleteSnapshot parentVol rbdSnap s).1 ErrSnapNotFound →
      rbdVol = some vol →
      (B.deleteImage vol (B.deleteSnapshot parentVol rbdSnap s).2).1 = some e →
      e.is ErrImageNotFound = false →
      (cleanUpSnapshot B parentVol rbdSnap rbdVol s).err = some e) := by
  unfold cleanUpSnapshot okOrIs
  dsimp only
  generalize B.deleteSnapshot parentVol rbdSnap s = d
  obtain ⟨d1, d2⟩ := d
  cases rbdVol with
  | none =>
    cases d1 with
    | none => simp
    | some derr => cases hs : derr.is ErrSnapNotFound <;> simp [hs, List.filter, Event.isDeleteImage]
  | some vol =>
    simp only [Option.some.injEq, forall_eq']
    have hex : ∀ (P : rbdVolume → GoError → Prop),
        (∀ (v : rbdVolume) (e : GoError), (∀ e2, d1 = some e2 → e2.is ErrSnapNotFound = true) →
          vol = v → P v e) ↔
        ((∀ e2, d1 = some e2 → e2.is ErrSnapNotFound = true) → ∀ e, P vol e) :=
      fun P => ⟨fun h hd e => h vol e hd rfl, fun h v e hd hv => hv ▸ h hd e⟩
    rw [hex]
    generalize B.deleteImage vol d2 = i
    obtain ⟨i1, i2⟩ := i
    cases d1 with
    | none =>
      cases i1 with
      | none => simp
      | some ierr => cases hb : ierr.is ErrImageNotFound <;> simp [hb]
    | some derr =>
      cases hs : derr.is ErrSnapNotFound
      · simp [hs, List.filter, Event.isDeleteImage]
      · cases i1 with
        | none => simp [hs]
        | some ierr => cases hb : ierr.is ErrImageNotFound <;> simp [hs, hb]

/-- C10, at concrete inputs over the `Store` model: on the empty store both
deletions fail with their not-found sentinels and `cleanUpSnapshot` returns
nil; when `deleteSnapshot` fails with "busy", that error is returned and
`deleteImage` is not called. -/
theorem cleanUpSnapshot_nil_iff_witness :
    (cleanUpSnapshot (modelBackend {}) { RbdImageName := "img" } { RbdSnapName := "snap-1" }
      (some { RbdImageName := "clone" }) {}).err = none ∧
    (cleanUpSnapshot (modelBackend { deleteSnapshot := some (.new "busy") })
      { RbdImageName := "img" } { RbdSnapName := "snap-1" }
      (some { RbdImageName := "clone" }) {}).err = some (.new "busy") ∧
    (cleanUpSnapshot (modelBackend { deleteSnapshot := some (.new "busy") })
      { RbdImageName := "img" } { RbdSnapName := "snap-1" }
      (some { RbdImageName := "clone" }) {}).trace.filter Event.isDeleteImage = [] :=
  ⟨(cleanUpSnapshot_nil_iff (modelBackend {}) { RbdImageName := "img" }
      { RbdSnapName := "snap-1" } (some { RbdImageName := "clone" }) {}).1.mpr (by decide),
   ((cleanUpSnapshot_nil_iff (modelBackend { deleteSnapshot := some (.new "busy") })
      { RbdImageName := "img" } { RbdSnapName := "snap-1" }
      (some { RbdImageName := "clone" }) {}).2.1 (.new "busy") rfl (by decide)).1,
   ((cleanUpSnapshot_nil_iff (modelBackend { deleteSnapshot := some (.new "busy") })
      { RbdImageName := "img" } { RbdSnapName := "snap-1" }
      (some { RbdImageName := "clone" }) {}).2.1 (.new "busy") rfl (by decide)).2⟩

/-! ## Theorems: `RegenerateSnapJournal` -/

set_option maxHeartbeats 1000000 in
/-- C3 (the code departs from the claim): in a run in which `ReserveName`
succeeded and the following `GenerateVolID` call returned an error,
`RegenerateSnapJournal` returns the empty handle with a nil error
(`return "", nil` at `snapshot.go:274`), not the error of `GenerateVolID`. -/
theorem RegenerateSnapJournal_generate_error_lost {σ : Type} (E : Collab σ)
    (snapVolumeID clusterName owner requestName : String) (cr : Credentials) (s : σ)
    (args : ReserveArgs) (reserved : String × String)
    (hreserve : Event.ReserveName args (.ok reserved)
      ∈ (RegenerateSnapJournal E snapVolumeID clusterName owner requestName cr s).trace)
    (hgen : ∃ ev ∈ (RegenerateSnapJournal E snapVolumeID clusterName owner requestName cr s).trace,
      ev.isGenerateVolIDFailure = true) :
    (RegenerateSnapJournal E snapVolumeID clusterName owner requestName cr s).err = none ∧
    (RegenerateSnapJournal E snapVolumeID clusterName owner requestName cr s).val = "" := by
  revert hreserve hgen
  unfold RegenerateSnapJournal regenerateConnected regenerateReserved regenerateExisting
        regenerateExistingOwner regenerateExistingVolID
  dsimp only
  repeat' split
  all_goals
    intro hreserve hgen
    simp [Event.isGenerateVolIDFailure, *] at hreserve hgen ⊢

/-- C3, at a concrete input: Scenario A of the spec (empty journal, request
"snap-42") with a handle encoder that fails with "encode failed". -/
theorem RegenerateSnapJournal_generate_error_lost_witness :
    (RegenerateSnapJournal
      (modelCollab { scenarioParams with
        genVolID := fun _ _ _ _ _ _ => .error (.new "encode failed") })
      "h1" "cluster" "ns-b" "snap-42" {} Journal.empty).err = none ∧
    (RegenerateSnapJournal
      (modelCollab { scenarioParams with
        genVolID := fun _ _ _ _ _ _ => .error (.new "encode failed") })
      "h1" "cluster" "ns-b" "snap-42" {} Journal.empty).val = "" :=
  RegenerateSnapJournal_generate_error_lost
    (modelCollab { scenarioParams with
      genVolID := fun _ _ _ _ _ _ => .error (.new "encode failed") })
    "h1" "cluster" "ns-b" "snap-42" {} Journal.empty
    scenarioReserveArgs ("u2", "csi-snap-u2") (by decide)
    ⟨.GenerateVolID "mon1" 5 "pool-5" "c1" "u2" volIDVersion (.error (.new "encode failed")),
      by decide, rfl⟩

set_option maxHeartbeats 1000000 in
/-- The world after a rolled-back run: when `ReserveName` succeeded and a
later step failed, `CheckReservation` had returned no record and the run ends
with `UndoReservation` followed by the `Destroy` of the journal connection. -/
theorem regenerate_rollback_state {σ : Type} (E : Collab σ)
    (snapVolumeID clusterName owner requestName : String) (cr : Credentials) (s : σ)
    (args : ReserveArgs) (reserved : String × String)
    (hreserve : Event.ReserveName args (.ok reserved)
      ∈ (RegenerateSnapJournal E snapVolumeID clusterName owner requestName cr s).trace)
    (hfail : ∃ ev ∈ (RegenerateSnapJournal E snapVolumeID clusterName owner requestName cr s).trace,
      ev.isLaterFailure = true) :
    ∃ s1 s2 volName,
      (E.CheckReservation args.journalPool requestName "csi-snap-" "" "" EncryptionTypeNone
        s1).1 = .ok none ∧
      (RegenerateSnapJournal E snapVolumeID clusterName owner requestName cr s).state
        = E.journalDestroy
            (E.UndoReservation args.journalPool args.imagePool volName requestName s2).2 := by
  revert hreserve hfail
  unfold RegenerateSnapJournal regenerateConnected regenerateReserved regenerateExisting
        regenerateExistingOwner regenerateExistingVolID
  dsimp only
  repeat' split
  all_goals
    intro hreserve hfail
    first
    | (exfalso; simp [Event.isLaterFailure, *] at hreserve hfail; done)
    | (simp only [List.mem_append, List.mem_cons, List.mem_singleton, List.not_mem_nil,
        Event.ReserveName.injEq, reduceCtorEq, or_false, false_or, and_true, true_and,
        and_false, false_and] at hreserve
       obtain ⟨rfl, hres⟩ := hreserve
       dsimp only
       refine ⟨?_, ?_, ?_, ?h1, ?h2⟩
       case h1 => assumption
       case h2 => exact rfl)

set_option maxHeartbeats 2000000 in
/-- C4: (1) in a run in which `ReserveName` succeeded and a later step
(`GenerateVolID` or `storeImageID`) failed, `UndoReservation` is called exactly
once, with the journal pool and image pool given to `ReserveName`, the image
name `ReserveName` returned and the request name of the call; (2) over the
`Journal` model, a `CheckReservation` for the same request name on the journal
the run leaves behind finds no record; (3) in a run in which no later step
failed, `UndoReservation` is not called. -/
theorem RegenerateSnapJournal_rollback {σ : Type} (E : Collab σ)
    (snapVolumeID clusterName owner requestName : String) (cr : Credentials) (s : σ)
    (P : ModelParams) (jn : Journal) :
    (∀ args reserved,
      Event.ReserveName args (.ok reserved)
        ∈ (RegenerateSnapJournal E snapVolumeID clusterName owner requestName cr s).trace →
      (∃ ev ∈ (RegenerateSnapJournal E snapVolumeID clusterName owner requestName cr s).trace,
        ev.isLaterFailure = true) →
      args.reqName = requestName ∧
      ∃ r, (RegenerateSnapJournal E snapVolumeID clusterName owner requestName cr s).trace.filter
          Event.isUndoReservation
        = [Event.UndoReservation args.journalPool args.imagePool reserved.2 requestName r]) ∧
    (∀ args reserved,
      Event.ReserveName args (.ok reserved)
        ∈ (RegenerateSnapJournal (modelCollab P) snapVolumeID clusterName owner requestName cr
            jn).trace →
      (∃ ev ∈ (RegenerateSnapJournal (modelCollab P) snapVolumeID clusterName owner requestName cr
            jn).trace, ev.isLaterFailure = true) →
      ((modelCollab P).CheckReservation args.journalPool requestName "csi-snap-" "" ""
        EncryptionTypeNone
        (RegenerateSnapJournal (modelCollab P) snapVolumeID clusterName owner requestName cr
          jn).state).1 = .ok none) ∧
    ((∀ ev ∈ (RegenerateSnapJournal E snapVolumeID clusterName owner requestName cr s).trace,
        ev.isLaterFailure = false) →
      (RegenerateSnapJournal E snapVolumeID clusterName owner requestName cr s).trace.filter
        Event.isUndoReservation = []) := by
  refine ⟨?_, ?_, ?_⟩
  · intro args reserved
    unfold RegenerateSnapJournal regenerateConnected regenerateReserved regenerateExisting
        regenerateExistingOwner regenerateExistingVolID
    dsimp only
    repeat' split
    all_goals
      intro hreserve hfail
      simp [Event.isLaterFailure, *] at hreserve hfail
      try (obtain ⟨rfl, hres⟩ := hreserve
           simp [Event.isUndoReservation, List.filter, hres])
  · intro args reserved hreserve hfail
    obtain ⟨s1, s2, volName, hcheck, hstate⟩ := regenerate_rollback_state (modelCollab P) snapVolumeID
      clusterName owner requestName cr jn args reserved hreserve hfail
    rw [hstate]
    revert hcheck
    simp only [modelCollab]
    cases P.checkFault <;> simp [Journal.check, Journal.undo]
  · unfold RegenerateSnapJournal regenerateConnected regenerateReserved regenerateExisting
        regenerateExistingOwner regenerateExistingVolID
    dsimp only
    repeat' split
    all_goals
      intro h
      simp [Event.isLaterFailure, Event.isUndoReservation, List.filter, *] at h ⊢

/-- C4, at concrete inputs: Scenario A of the spec (empty journal, request
"snap-42") with a failing `storeImageID`, and without any failure. -/
theorem RegenerateSnapJournal_rollback_witness :
    (∃ r, (RegenerateSnapJournal
        (modelCollab { scenarioParams with storeFault := some (.new "store failed") })
        "h1" "cluster" "ns-b" "snap-42" {} Journal.empty).trace.filter Event.isUndoReservation
      = [Event.UndoReservation "pool-5" "pool-5" "csi-snap-u2" "snap-42" r]) ∧
    ((modelCollab { scenarioParams with storeFault := some (.new "store failed") }).CheckReservation
      "pool-5" "snap-42" "csi-snap-" "" "" EncryptionTypeNone
      (RegenerateSnapJournal
        (modelCollab { scenarioParams with storeFault := some (.new "store failed") })
        "h1" "cluster" "ns-b" "snap-42" {} Journal.empty).state).1 = .ok none ∧
    (RegenerateSnapJournal (modelCollab scenarioParams)
        "h1" "cluster" "ns-b" "snap-42" {} Journal.empty).trace.filter Event.isUndoReservation
      = [] :=
  ⟨((RegenerateSnapJournal_rollback
      (modelCollab { scenarioParams with storeFault := some (.new "store failed") })
      "h1" "cluster" "ns-b" "snap-42" {} Journal.empty
      { scenarioParams with storeFault := some (.new "store failed") } Journal.empty).1
      scenarioReserveArgs ("u2", "csi-snap-u2") (by decide) (by decide)).2,
   (RegenerateSnapJournal_rollback
      (modelCollab { scenarioParams with storeFault := some (.new "store failed") })
      "h1" "cluster" "ns-b" "snap-42" {} Journal.empty
      { scenarioParams with storeFault := some (.new "store failed") } Journal.empty).2.1
      scenarioReserveArgs ("u2", "csi-snap-u2") (by decide) (by decide),
   (RegenerateSnapJournal_rollback (modelCollab scenarioParams)
      "h1" "cluster" "ns-b" "snap-42" {} Journal.empty scenarioParams Journal.empty).2.2
      (by decide)⟩

/-- C7 (counterexample): Scenario B of the spec with a failing `storeImageID`.
`CheckReservation` returns the record of owner "ns-a", the caller's owner is
"ns-b", and `ResetVolumeOwner` is not called: the record has no image id, the
backfill of line 230 fails and line 232 returns before the owner is looked
at. -/
theorem RegenerateSnapJournal_reset_skipped :
    Event.CheckReservation "pool-5" "snap-42" "csi-snap-" "" "" EncryptionTypeNone
        (.ok (some scenarioBRecord))
      ∈ (RegenerateSnapJournal
          (modelCollab { scenarioParams with storeFault := some (.new "store failed") })
          "h1" "cluster" "ns-b" "snap-42" {} scenarioBJournal).trace ∧
    scenarioBRecord.ImageAttributes.Owner ≠ "ns-b" ∧
    (RegenerateSnapJournal
        (modelCollab { scenarioParams with storeFault := some (.new "store failed") })
        "h1" "cluster" "ns-b" "snap-42" {} scenarioBJournal).trace.filter
      Event.isResetVolumeOwner = [] := by
  decide

set_option maxHeartbeats 2000000 in
/-- C7 (amended): in a run in which `CheckReservation` returned an existing
record, (1) if the owner of the record differs from the owner of the caller
and no `storeImageID` call failed, `ResetVolumeOwner` is called exactly once,
with the journal pool, the UUID of the record and the owner of the caller;
(2) `ReserveName` is not called; (3) if the run returns a nil error, the
returned handle is the result of the `GenerateVolID` call made with the
resolved monitors, image pool id, pool and cluster id and the UUID of the
record; (4) if the owner of the record equals the owner of the caller,
`ResetVolumeOwner` is not called. -/
theorem RegenerateSnapJournal_existing_record {σ : Type} (E : Collab σ)
    (snapVolumeID clusterName owner requestName : String) (cr : Credentials) (s : σ)
    (jp rq np pn k : String) (et : Nat) (d : ImageData)
    (hcheck : Event.CheckReservation jp rq np pn k et (.ok (some d))
      ∈ (RegenerateSnapJournal E snapVolumeID clusterName owner requestName cr s).trace) :
    (d.ImageAttributes.Owner ≠ owner →
      (∀ ev ∈ (RegenerateSnapJournal E snapVolumeID clusterName owner requestName cr s).trace,
        ev.isStoreImageIDFailure = false) →
      ∃ r, (RegenerateSnapJournal E snapVolumeID clusterName owner requestName cr s).trace.filter
          Event.isResetVolumeOwner
        = [Event.ResetVolumeOwner jp d.ImageUUID owner r]) ∧
    (RegenerateSnapJournal E snapVolumeID clusterName owner requestName cr s).trace.filter
      Event.isReserveName = [] ∧
    ((RegenerateSnapJournal E snapVolumeID clusterName owner requestName cr s).err = none →
      ∃ cid0 mons cid jpid pid,
        Event.FetchMappedClusterIDAndMons cid0 (.ok (mons, cid))
          ∈ (RegenerateSnapJournal E snapVolumeID clusterName owner requestName cr s).trace ∧
        Event.GetPoolIDs mons jp jp (.ok (jpid, pid))
          ∈ (RegenerateSnapJournal E snapVolumeID clusterName owner requestName cr s).trace ∧
        Event.GenerateVolID mons pid jp cid d.ImageUUID volIDVersion
            (.ok (RegenerateSnapJournal E snapVolumeID clusterName owner requestName cr s).val)
          ∈ (RegenerateSnapJournal E snapVolumeID clusterName owner requestName cr s).trace) ∧
    (d.ImageAttributes.Owner = owner →
      (RegenerateSnapJournal E snapVolumeID clusterName owner requestName cr s).trace.filter
        Event.isResetVolumeOwner = []) := by
  revert hcheck
  unfold RegenerateSnapJournal regenerateConnected regenerateReserved regenerateExisting
        regenerateExistingOwner regenerateExistingVolID
  dsimp only
  repeat' split
  all_goals
    intro hcheck
    simp [*] at hcheck
  all_goals
    obtain ⟨rfl, rfl, rfl, rfl, rfl, rfl, rfl⟩ := hcheck
    dsimp only
    refine ⟨?_, ?_, ?_, ?_⟩
    · intro hne hstore
      solve
      | simp [Event.isStoreImageIDFailure, Event.isResetVolumeOwner, List.filter, *] at hstore ⊢
      | simp_all [Event.isStoreImageIDFailure, Event.isResetVolumeOwner, List.filter]
    · simp [Event.isReserveName, List.filter]
    · intro herr
      solve
      | simp at herr
      | simp [*]
      | (simp_all
         exact ⟨_, _, _, ⟨rfl, rfl, rfl⟩, _, _, ⟨rfl, rfl, rfl⟩, rfl, rfl, rfl⟩)
    · intro heq
      simp [Event.isResetVolumeOwner, List.filter, *] at heq ⊢

/-- C7 (amended), at a concrete input: Scenario B of the spec, where nothing
fails: the owner is reset to "ns-b", no name is reserved and the handle
"c1/5/u9" is returned. -/
theorem RegenerateSnapJournal_existing_record_witness :
    (∃ r, (RegenerateSnapJournal (modelCollab scenarioParams)
        "h1" "cluster" "ns-b" "snap-42" {} scenarioBJournal).trace.filter
        Event.isResetVolumeOwner
      = [Event.ResetVolumeOwner "pool-5" "u9" "ns-b" r]) ∧
    (RegenerateSnapJournal (modelCollab scenarioParams)
        "h1" "cluster" "ns-b" "snap-42" {} scenarioBJournal).trace.filter
        Event.isReserveName = [] ∧
    (RegenerateSnapJournal (modelCollab scenarioParams)
        "h1" "cluster" "ns-b" "snap-42" {} scenarioBJournal).val = "c1/5/u9" :=
  ⟨(RegenerateSnapJournal_existing_record (modelCollab scenarioParams)
      "h1" "cluster" "ns-b" "snap-42" {} scenarioBJournal
      "pool-5" "snap-42" "csi-snap-" "" "" EncryptionTypeNone scenarioBRecord (by decide)).1
      (by decide) (by decide),
   (RegenerateSnapJournal_existing_record (modelCollab scenarioParams)
      "h1" "cluster" "ns-b" "snap-42" {} scenarioBJournal
      "pool-5" "snap-42" "csi-snap-" "" "" EncryptionTypeNone scenarioBRecord (by decide)).2.1,
   by decide⟩

/-- Two runs of the connected part of `RegenerateSnapJournal` over the
`Journal` model: when the first returns a nil error and its `GenerateVolID`
call did not fail, the second, started on the journal the first left behind,
returns the same handle with a nil error and does not call `ReserveName`. -/
theorem regenerateConnected_idempotent (P : ModelParams) (vol : rbdVolume) (vi : CSIIdentifier)
    (owner requestName : String) (cr : Credentials) (jn : Journal)
    (hid : vol.ImageID = "") (hown : vol.Owner = owner)
    (hok : (regenerateConnected (modelCollab P) vol vi owner requestName cr jn).err = none)
    (hgen : ∀ ev ∈ (regenerateConnected (modelCollab P) vol vi owner requestName cr jn).trace,
      ev.isGenerateVolIDFailure = false) :
    (regenerateConnected (modelCollab P) vol vi owner requestName cr
        (regenerateConnected (modelCollab P) vol vi owner requestName cr jn).state).val
      = (regenerateConnected (modelCollab P) vol vi owner requestName cr jn).val ∧
    (regenerateConnected (modelCollab P) vol vi owner requestName cr
        (regenerateConnected (modelCollab P) vol vi owner requestName cr jn).state).err = none ∧
    (regenerateConnected (modelCollab P) vol vi owner requestName cr
        (regenerateConnected (modelCollab P) vol vi owner requestName cr jn).state).trace.filter
      Event.isReserveName = [] := by
  rcases hp : P.poolIDs vol.Monitors vol.JournalPool vol.Pool with e | ⟨jpid, pid⟩
  · simp [regenerateConnected, modelCollab, hp] at hok
  rcases hcf : P.checkFault with _ | e
  swap
  · simp [regenerateConnected, modelCollab, hp, hcf] at hok
  rcases hrec : jn.records vol.JournalPool requestName with _ | d
  · rcases hrf : P.reserveFault with _ | e
    swap
    · simp [regenerateConnected, modelCollab, Journal.check, hp, hcf, hrec, hrf] at hok
    rcases hg : P.genVolID vol.Monitors pid vol.Pool vol.ClusterID (P.newUUID jn.counter)
      volIDVersion with e | h
    · simp [regenerateConnected, regenerateReserved, modelCollab, Journal.check, Journal.reserve,
        hp, hcf, hrec, hrf, hg, Event.isGenerateVolIDFailure] at hgen
    rcases hsf : P.storeFault with _ | e
    swap
    · simp [regenerateConnected, regenerateReserved, modelCollab, Journal.check, Journal.reserve,
        hp, hcf, hrec, hrf, hg, hsf, hid] at hok
    simp [regenerateConnected, regenerateReserved, regenerateExisting, regenerateExistingOwner,
      regenerateExistingVolID, modelCollab,
      Journal.check, Journal.reserve, Journal.storeID, hp, hcf, hrec, hrf, hg, hsf, hid, hown,
      Event.isReserveName, List.filter]
    split <;> simp [hg, hsf, Event.isReserveName, List.filter]
  · rcases hg : P.genVolID vol.Monitors pid vol.Pool vol.ClusterID d.ImageUUID volIDVersion
      with e | h <;>
    rcases hsf : P.storeFault with _ | e1 <;>
    rcases hrs : P.resetFault with _ | e2 <;>
    by_cases h1 : d.ImageAttributes.ImageID = "" <;>
    by_cases h2 : d.ImageAttributes.Owner = owner <;>
    simp [regenerateConnected, regenerateExisting, regenerateExistingOwner,
      regenerateExistingVolID, modelCollab, Journal.check, Journal.storeID, Journal.resetOwner,
      hp, hcf, hrec, hg, hsf, hrs, h1, h2, Event.isReserveName, Event.isGenerateVolIDFailure,
      List.filter] at hok hgen ⊢ <;>
    split <;> simp [Event.isReserveName, List.filter]

/-- C6 (amended): over the `Journal` model, when a call of
`RegenerateSnapJournal` returns a nil error and its `GenerateVolID` call did
not fail, a second call with the same arguments on the journal the first call
left behind returns the same handle with a nil error and does not call
`ReserveName`. -/
theorem RegenerateSnapJournal_idempotent (P : ModelParams)
    (snapVolumeID clusterName owner requestName : String) (cr : Credentials) (jn : Journal)
    (hok : (RegenerateSnapJournal (modelCollab P) snapVolumeID clusterName owner requestName cr
      jn).err = none)
    (hgen : ∀ ev ∈ (RegenerateSnapJournal (modelCollab P) snapVolumeID clusterName owner
      requestName cr jn).trace, ev.isGenerateVolIDFailure = false) :
    (RegenerateSnapJournal (modelCollab P) snapVolumeID clusterName owner requestName cr
        (RegenerateSnapJournal (modelCollab P) snapVolumeID clusterName owner requestName cr
          jn).state).val
      = (RegenerateSnapJournal (modelCollab P) snapVolumeID clusterName owner requestName cr
          jn).val ∧
    (RegenerateSnapJournal (modelCollab P) snapVolumeID clusterName owner requestName cr
        (RegenerateSnapJournal (modelCollab P) snapVolumeID clusterName owner requestName cr
          jn).state).err = none ∧
    (RegenerateSnapJournal (modelCollab P) snapVolumeID clusterName owner requestName cr
        (RegenerateSnapJournal (modelCollab P) snapVolumeID clusterName owner requestName cr
          jn).state).trace.filter Event.isReserveName = [] := by
  have e1 : (modelCollab P).DecomposeCSIID = P.decode := rfl
  have e2 : ∀ c j, (modelCollab P).FetchMappedClusterIDAndMons c j = (P.clusterMap c, j) :=
    fun _ _ => rfl
  have e3 : ∀ c i j, (modelCollab P).FetchMappedRBDPoolID c i j = (P.poolIDMap c i, j) :=
    fun _ _ _ => rfl
  have e4 : ∀ m c i j, (modelCollab P).GetPoolName m c i j = (P.poolName m i, j) :=
    fun _ _ _ _ => rfl
  have e5 : ∀ v c j, (modelCollab P).Connect v c j = (P.connectFault, j) := fun _ _ _ => rfl
  have e6 : ∀ m r c j, (modelCollab P).journalConnect m r c j = (P.journalConnectFault, j) :=
    fun _ _ _ _ => rfl
  have e7 : ∀ j, (modelCollab P).journalDestroy j = j := fun _ => rfl
  unfold RegenerateSnapJournal at hok hgen ⊢
  simp only [e1, e2, e3, e4, e5, e6, e7] at hok hgen ⊢
  rcases hd : P.decode snapVolumeID with e | vi
  · simp [hd] at hok
  simp only [hd] at hok hgen ⊢
  rcases hm : P.clusterMap vi.ClusterID with e | ⟨mons, cid⟩
  · simp [hm] at hok
  simp only [hm] at hok hgen ⊢
  rcases hf : P.poolIDMap cid (FormatInt vi.LocationID) with e | mapped
  · simp [hf] at hok
  simp only [hf] at hok hgen ⊢
  rcases hpi : ParseInt mapped with e | pID
  · simp [hpi] at hok
  simp only [hpi] at hok hgen ⊢
  rcases hn : P.poolName mons pID with e | poolName
  · simp [hn] at hok
  simp only [hn] at hok hgen ⊢
  rcases hc : P.connectFault with _ | e
  swap
  · simp [hc] at hok
  simp only [hc] at hok hgen ⊢
  rcases hj : P.journalConnectFault with _ | e
  swap
  · simp [hj] at hok
  simp only [hj] at hok hgen ⊢
  have hgen2 : ∀ ev ∈ (regenerateConnected (modelCollab P)
      { VolID := snapVolumeID, ClusterName := clusterName, Owner := owner, Monitors := mons,
        ClusterID := cid, Pool := poolName, JournalPool := poolName }
      vi owner requestName cr jn).trace, ev.isGenerateVolIDFailure = false := by
    intro ev hev
    exact hgen ev (by simp [hev])
  obtain ⟨h1, h2, h3⟩ := regenerateConnected_idempotent P _ vi owner requestName cr jn rfl rfl
    hok hgen2
  refine ⟨h1, h2, ?_⟩
  simp [List.filter_append, h3, List.filter, Event.isReserveName]

/-- C6 (counterexample): Scenario A of the spec (empty journal, request
"snap-42") with a failing `storeImageID`.  The first call reserves a name,
fails and undoes the reservation; the second call, on the journal the first
left behind, finds no record and calls `ReserveName` again. -/
theorem RegenerateSnapJournal_second_call_reserves :
    ¬ ((RegenerateSnapJournal
          (modelCollab { scenarioParams with storeFault := some (.new "store failed") })
          "h1" "cluster" "ns-b" "snap-42" {}
          (RegenerateSnapJournal
            (modelCollab { scenarioParams with storeFault := some (.new "store failed") })
            "h1" "cluster" "ns-b" "snap-42" {} Journal.empty).state).val
        = (RegenerateSnapJournal
            (modelCollab { scenarioParams with storeFault := some (.new "store failed") })
            "h1" "cluster" "ns-b" "snap-42" {} Journal.empty).val ∧
      (RegenerateSnapJournal
          (modelCollab { scenarioParams with storeFault := some (.new "store failed") })
          "h1" "cluster" "ns-b" "snap-42" {}
          (RegenerateSnapJournal
            (modelCollab { scenarioParams with storeFault := some (.new "store failed") })
            "h1" "cluster" "ns-b" "snap-42" {} Journal.empty).state).trace.filter
        Event.isReserveName = []) := by
  decide

/-- C6 (amended), at a concrete input: Scenario A of the spec, where nothing
fails: both calls return the handle "c1/5/u2" and the second call does not
call `ReserveName`. -/
theorem RegenerateSnapJournal_idempotent_witness :
    (RegenerateSnapJournal (modelCollab scenarioParams) "h1" "cluster" "ns-b" "snap-42" {}
        (RegenerateSnapJournal (modelCollab scenarioParams) "h1" "cluster" "ns-b" "snap-42" {}
          Journal.empty).state).val
      = (RegenerateSnapJournal (modelCollab scenarioParams) "h1" "cluster" "ns-b" "snap-42" {}
          Journal.empty).val ∧
    (RegenerateSnapJournal (modelCollab scenarioParams) "h1" "cluster" "ns-b" "snap-42" {}
        (RegenerateSnapJournal (modelCollab scenarioParams) "h1" "cluster" "ns-b" "snap-42" {}
          Journal.empty).state).err = none ∧
    (RegenerateSnapJournal (modelCollab scenarioParams) "h1" "cluster" "ns-b" "snap-42" {}
        (RegenerateSnapJournal (modelCollab scenarioParams) "h1" "cluster" "ns-b" "snap-42" {}
          Journal.empty).state).trace.filter Event.isReserveName = [] :=
  RegenerateSnapJournal_idempotent scenarioParams "h1" "cluster" "ns-b" "snap-42" {}
    Journal.empty (by decide) (by decide)

/-! ## Theorems: `reconcileVS` -/

/-- C8: whatever the object, the lock table and the collaborators do, the
lock table that `reconcileVS` leaves behind is the lock table it was given: a
key that was acquired is released on every path, and a failed acquisition
changes nothing. -/
theorem reconcileVS_locks_unchanged {σ : Type} (E : Collab σ) (K : Client σ) (config : Config)
    (obj : Object) (locks : VolumeLocks) (s : σ) :
    (reconcileVS E K config obj locks s).locks = locks := by
  unfold reconcileVS
  have key : ∀ k : String, k ∉ locks.locks →
      (VolumeLocks.Release ⟨insert k locks.locks⟩ k) = locks := by
    intro k hk
    cases locks with
    | mk l => simp [VolumeLocks.Release, Finset.erase_insert hk]
  cases obj with
  | other kind => rfl
  | volumeSnapshotContent vsc =>
    dsimp only
    split
    · rfl
    split
    · rfl
    split
    · rfl
    split
    · rfl
    next statusHandle _ =>
    by_cases hk : statusHandle ∈ locks.locks
    · simp [VolumeLocks.TryAcquire, hk]
    · simp only [VolumeLocks.TryAcquire, hk, if_false, Bool.true_eq_false]
      repeat' split
      all_goals exact key _ hk

/-- C5 (amended): for a VolumeSnapshotContent of this driver whose
`Spec.Source.SnapshotHandle` is set and not empty, if the key
`*vsc.Status.SnapshotHandle` is held in the lock table, `reconcileVS` returns
the non-nil error of line 153 at once: its only call is the failed
`TryAcquire` of that key, so `getCredentials` and `RegenerateSnapJournal` are
not called, and the lock table and the world are unchanged. -/
theorem reconcileVS_busy {σ : Type} (E : Collab σ) (K : Client σ) (config : Config)
    (vsc : VolumeSnapshotContent) (locks : VolumeLocks) (s : σ)
    (specHandle statusHandle : String)
    (hdriver : vsc.Spec.Driver = config.DriverName)
    (hspec : vsc.Spec.Source.SnapshotHandle = some specHandle)
    (hne : specHandle ≠ "")
    (hstatus : vsc.Status.bind (fun st => st.SnapshotHandle) = some statusHandle)
    (hheld : statusHandle ∈ locks.locks) :
    (reconcileVS E K config (.volumeSnapshotContent vsc) locks s).ret
      = .returned (some (.new "")) ∧
    (reconcileVS E K config (.volumeSnapshotContent vsc) locks s).trace
      = [Event.TryAcquire statusHandle false] ∧
    (reconcileVS E K config (.volumeSnapshotContent vsc) locks s).trace.filter
      Event.isCallGetCredentials = [] ∧
    (reconcileVS E K config (.volumeSnapshotContent vsc) locks s).trace.filter
      Event.isCallRegenerate = [] ∧
    (reconcileVS E K config (.volumeSnapshotContent vsc) locks s).locks = locks ∧
    (reconcileVS E K config (.volumeSnapshotContent vsc) locks s).state = s := by
  simp [reconcileVS, hdriver, hspec, hne, hstatus, VolumeLocks.TryAcquire, hheld, List.filter,
    Event.isCallGetCredentials, Event.isCallRegenerate]

/-- C5 (counterexample): the source handle "h1", which `reconcileVS` passes to
`RegenerateSnapJournal`, is held in the lock table, the status handle is "h2":
`reconcileVS` acquires "h2", calls `getCredentials` and
`RegenerateSnapJournal` with "h1" and returns nil. -/
theorem reconcileVS_input_handle_not_locked :
    "h1" ∈ (VolumeLocks.mk {"h1"}).locks ∧
    (reconcileVS (modelCollab scenarioParams) scenarioClient scenarioConfig
        (.volumeSnapshotContent (scenarioContent "h2")) ⟨{"h1"}⟩ Journal.empty).trace.filter
      Event.isCallGetCredentials = [Event.callGetCredentials "sec" "ns"] ∧
    (reconcileVS (modelCollab scenarioParams) scenarioClient scenarioConfig
        (.volumeSnapshotContent (scenarioContent "h2")) ⟨{"h1"}⟩ Journal.empty).trace.filter
      Event.isCallRegenerate = [Event.callRegenerateSnapJournal "h1" "cluster" "ns-b" "snap-42"] ∧
    (reconcileVS (modelCollab scenarioParams) scenarioClient scenarioConfig
        (.volumeSnapshotContent (scenarioContent "h2")) ⟨{"h1"}⟩ Journal.empty).ret
      = .returned none := by
  decide

/-- C5 (amended), at a concrete input: source handle "h1", status handle "h2",
and "h2" held in the lock table. -/
theorem reconcileVS_busy_witness :
    (reconcileVS (modelCollab scenarioParams) scenarioClient scenarioConfig
        (.volumeSnapshotContent (scenarioContent "h2")) ⟨{"h2"}⟩ Journal.empty).ret
      = .returned (some (.new "")) :=
  (reconcileVS_busy (modelCollab scenarioParams) scenarioClient scenarioConfig
    (scenarioContent "h2") ⟨{"h2"}⟩ Journal.empty "h1" "h2" rfl rfl (by decide) rfl
    (by decide)).1

end CephCSI
